import Mathlib

/-!
Shallow embedding of the bag3_digital generators (schematic `des_1toN.design`,
layout `CurrentStarvedInvCore.draw_layout` / `connect_through` / `track_to_track`,
`InvDiffCore.draw_layout`, `InvDiffChain.draw_layout`).

Framework calls (the bag/xbase placement and routing engine) are modelled by
opaque environment records of functions; wires produced by routing calls are
modelled symbolically.  Python exceptions are modelled by `Except PyErr`.
-/

namespace Bag3

/-- Terminal types from pybag.enum.TermType. -/
inductive TermType where
  | input
  | output
  | inout
deriving DecidableEq

/-- Python exceptions raised by the modelled code.  A `nameError` is Python
reading a local variable that was never assigned. -/
inductive PyErr where
  | valueError (msg : String)
  | notImplementedError (msg : String)
  | nameError (name : String)
  | indexError (msg : String)
deriving DecidableEq

/-- Integer range `range(a, b)` of Python: the list a, a+1, ..., b-1. -/
def intRange (a b : Int) : List Int :=
  (List.range (b - a).toNat).map (fun (i : Nat) => a + (i : Int))

/-- Parameters of `bag3_digital__des_1toN.design`.  The four sub-instance
parameter mappings are opaque to this function; they are only forwarded to
the sub-instances, so they are modelled as opaque tokens. -/
structure DesParams where
  flop_fast : Nat
  flop_slow : Nat
  inv_fast : Nat
  inv_slow : Nat
  des_ratio : Int
  export_nets : Bool
deriving DecidableEq

/-- The effect of a successful `bag3_digital__des_1toN.design` call on the
module state: sub-designs invoked, terminal reconnections, pin renames,
instance arrayings (instance name, its list of (terminal, net) pairs) and
added pins, in program order.  `params` is `self.params` after the call. -/
structure DesResult where
  params : DesParams
  designed : List (String × Nat)
  reconnects : List (String × String × String)
  renamed : List (String × String)
  arrays : List (String × List (String × List (String × String)))
  new_pins : List (String × TermType)
deriving DecidableEq

/-- Model of `bag3_digital__des_1toN.design` (src/bag3_digital/schematic/des_1toN.py,
lines 77-105). -/
def bag3_digital__des_1toN.design (p : DesParams) : Except PyErr DesResult :=
  let designed := [(("XFF"), p.flop_fast), (("XFS"), p.flop_slow),
                   (("XINVC"), p.inv_fast), (("XINVD"), p.inv_slow)]
  let reconnects := [(("XFF"), ("clkb"), ("clkb")), (("XFS"), ("clkb"), ("clk_divb"))]
  if p.des_ratio < 2 then
    Except.error (PyErr.valueError
      (("des_ratio=") ++ toString p.des_ratio ++ (" has to be greater than 1.")))
  else
    let suf := ("<") ++ toString (p.des_ratio - 1) ++ (":0>")
    let fast_list := (List.range p.des_ratio.toNat).map (fun idx =>
      (("XFF") ++ toString idx,
       [(("out"), ("d<") ++ toString idx ++ (">")),
        (("in"), if idx = 0 then ("din") else ("d<") ++ toString (idx - 1) ++ (">"))]))
    let slow_list := (List.range p.des_ratio.toNat).map (fun idx =>
      (("XFS") ++ toString idx,
       [(("out"), ("dout<") ++ toString idx ++ (">")),
        (("in"), ("d<") ++ toString idx ++ (">"))]))
    Except.ok
      { params := p
        designed := designed
        reconnects := reconnects
        renamed := [(("dout"), ("dout") ++ suf)]
        arrays := [(("XFF"), fast_list), (("XFS"), slow_list)]
        new_pins := if p.export_nets then
            [(("d") ++ suf, TermType.output), (("clkb"), TermType.output),
             (("clk_divb"), TermType.output)]
          else [] }

/-- A sample parameter set with `des_ratio = 3` and nets exported. -/
def desP3 : DesParams :=
  { flop_fast := 0, flop_slow := 1, inv_fast := 2, inv_slow := 3,
    des_ratio := 3, export_nets := true }

/-- A sample parameter set with `des_ratio = 1` (invalid). -/
def desPBad : DesParams :=
  { flop_fast := 0, flop_slow := 1, inv_fast := 2, inv_slow := 3,
    des_ratio := 1, export_nets := false }

/-- The result of `design` on `desP3` (defined so witnesses can name it). -/
def desRes3 : DesResult :=
  match bag3_digital__des_1toN.design desP3 with
  | Except.ok r => r
  | Except.error _ =>
    { params := desP3, designed := [], reconnects := [], renamed := [],
      arrays := [], new_pins := [] }

/-- C1: for des_ratio = N >= 2, `design` reconnects XFF's clkb terminal to net
clkb and XFS's clkb terminal to net clk_divb, then arrays XFF into instances
XFF0..XFF(N-1), instance idx having terminal out on net d<idx> and terminal in
on din (idx = 0) or d<idx-1> (idx > 0), and arrays XFS into XFS0..XFS(N-1),
instance idx having out on dout<idx> and in on d<idx>. -/
theorem des_1toN_design_arrays (p : DesParams) (h : 2 ≤ p.des_ratio) :
    ∃ r, bag3_digital__des_1toN.design p = Except.ok r ∧
      r.reconnects = [(("XFF"), ("clkb"), ("clkb")), (("XFS"), ("clkb"), ("clk_divb"))] ∧
      ∃ fastL slowL,
        r.arrays = [(("XFF"), fastL), (("XFS"), slowL)] ∧
        fastL.length = p.des_ratio.toNat ∧ slowL.length = p.des_ratio.toNat ∧
        (∀ idx, idx < p.des_ratio.toNat →
          fastL[idx]? = some (("XFF") ++ toString idx,
            [(("out"), ("d<") ++ toString idx ++ (">")),
             (("in"), if idx = 0 then ("din") else ("d<") ++ toString (idx - 1) ++ (">"))]) ∧
          slowL[idx]? = some (("XFS") ++ toString idx,
            [(("out"), ("dout<") ++ toString idx ++ (">")),
             (("in"), ("d<") ++ toString idx ++ (">"))])) := by
  have hlt : ¬ p.des_ratio < 2 := not_lt.mpr h
  simp only [bag3_digital__des_1toN.design, if_neg hlt]
  refine ⟨_, rfl, rfl, _, _, rfl, by simp, by simp, ?_⟩
  intro idx hidx
  constructor <;> simp [List.getElem?_map, List.getElem?_range, hidx]

/-- Witness for C1 at `des_ratio = 3`. -/
theorem des_1toN_design_arrays_witness :
    ∃ r, bag3_digital__des_1toN.design desP3 = Except.ok r ∧
      r.reconnects = [(("XFF"), ("clkb"), ("clkb")), (("XFS"), ("clkb"), ("clk_divb"))] := by
  obtain ⟨r, h1, h2, -⟩ := des_1toN_design_arrays desP3 (by decide)
  exact ⟨r, h1, h2⟩

/-- C3: `design` raises ValueError if and only if `des_ratio < 2`, for every
assignment of the remaining parameters. -/
theorem des_1toN_design_error_iff (p : DesParams) :
    (∃ e, bag3_digital__des_1toN.design p = Except.error e) ↔ p.des_ratio < 2 := by
  constructor
  · intro ⟨e, he⟩
    by_contra hlt
    simp only [bag3_digital__des_1toN.design, if_neg hlt] at he
    exact Except.noConfusion he
  · intro hlt
    refine ⟨PyErr.valueError
      (("des_ratio=") ++ toString p.des_ratio ++ (" has to be greater than 1.")), ?_⟩
    simp only [bag3_digital__des_1toN.design, if_pos hlt]

/-- Witness for C3: `design` fails at `des_ratio = 1` (and the raised error is
a ValueError). -/
theorem des_1toN_design_error_iff_witness :
    ∃ e, bag3_digital__des_1toN.design desPBad = Except.error e :=
  (des_1toN_design_error_iff desPBad).mpr (by decide)

/-- Reassociating a string prefix across an append. -/
theorem append_angle (a b t c : String) (hab : b = a ++ ("<")) :
    a ++ (("<") ++ t ++ c) = b ++ t ++ c := by
  subst hab; simp [String.append_assoc]

/-- C4: after a successful `design` with des_ratio = N >= 2, the pin dout has
been renamed to the bus pin dout<N-1:0>, and the output pins d<N-1:0>, clkb
and clk_divb have been added if and only if export_nets is true. -/
theorem des_1toN_design_pins (p : DesParams) (h : 2 ≤ p.des_ratio) :
    ∃ r, bag3_digital__des_1toN.design p = Except.ok r ∧
      r.renamed = [(("dout"),
        ("dout<") ++ toString (p.des_ratio - 1) ++ (":0>"))] ∧
      r.new_pins = (if p.export_nets then
          [(("d<") ++ toString (p.des_ratio - 1) ++ (":0>"), TermType.output),
           (("clkb"), TermType.output), (("clk_divb"), TermType.output)]
        else []) := by
  have hlt : ¬ p.des_ratio < 2 := not_lt.mpr h
  simp only [bag3_digital__des_1toN.design, if_neg hlt]
  refine ⟨_, rfl, ?_, ?_⟩
  · rw [append_angle ("dout") ("dout<") _ _ rfl]
  · by_cases he : p.export_nets
    · simp only [he, if_pos]
      rw [append_angle ("d") ("d<") _ _ rfl]
    · simp [he]

/-- Witness for C4 at `des_ratio = 3` with `export_nets = true`. -/
theorem des_1toN_design_pins_witness :
    ∃ r, bag3_digital__des_1toN.design desP3 = Except.ok r ∧
      r.renamed = [(("dout"), ("dout<") ++ toString ((3 : Int) - 1) ++ (":0>"))] := by
  obtain ⟨r, h1, h2, -⟩ := des_1toN_design_pins desP3 (by decide)
  exact ⟨r, h1, h2⟩

/-- Wire kinds of `xbase` `MOSWireType` used by `CurrentStarvedInvCore`. -/
inductive MOSWireType where
  | g
  | ds_gate
deriving DecidableEq

/-- Symbolic wires of the current-starved inverter layout: raw transistor
ports (gate / drain / source of the device placed on row `ridx`), the result
`tr src layer tidx` of `connect_to_tracks(src, TrackID(layer, tidx))`, and the
result `joined layer ws` of merging wires with `connect_wires` or
`connect_to_track_wires`. -/
inductive Wire where
  | mosG (ridx : Int)
  | mosD (ridx : Int)
  | mosS (ridx : Int)
  | tr (src : List Wire) (layer : Int) (tidx : Int)
  | joined (layer : Int) (ws : List Wire)

/-- The framework state `CurrentStarvedInvCore.draw_layout` consults: grid
layers, row orientation, track lookup and coordinate conversion, wire
geometry, and per-row schematic data of the inverter tile.  All of it is
owned by the external engine, so it is opaque here. -/
structure CSEnv where
  conn_layer : Int
  top_layer : Int
  row_flip : Int → Int → Bool
  track_index : Int → Int → MOSWireType → Int → Int
  coord_to_track : Int → Int → Int
  track_to_coord : Int → Int → Int
  find_next_track : Int → Int → Int
  next_track_down : Int → Int → Int
  wire_middle : Wire → Int
  wire_lower : Wire → Int
  wire_base : Wire → Int
  row_width : Int → Int → Int
  row_threshold : Int → Int → Int
  lch : Int → Int

/-- `layer_id` of a symbolic wire: raw mos ports live on `conn_layer`. -/
def wireLayer (env : CSEnv) : Wire → Int
  | Wire.tr _ l _ => l
  | Wire.joined l _ => l
  | _ => env.conn_layer

/-- `track_id.base_index` of a symbolic wire. -/
def wireBaseIndex (env : CSEnv) : Wire → Int
  | Wire.tr _ _ t => t
  | w => env.wire_base w

/-- Parameters of `CurrentStarvedInvCore.draw_layout`, after merging in the
defaults of `get_default_param_values`.  `pinfo` and `sig_locs` track values
live in `CSEnv` / the `sig_locs` lookup function. -/
structure CSInvParams where
  seg_inv : Int
  seg_mir : Int
  seg_p : Int
  seg_n : Int
  stack_p : Int
  stack_n : Int
  w_p : Int
  w_n : Int
  ridx_p : Int
  ridx_n_inv : Int
  ridx_n_mir : Int
  is_guarded : Bool
  sig_locs : String → Option Int
  vertical_out : Bool
  vertical_sup : Bool
  vertical_in : Bool
  ptap_tile_idx : Int
  ntap_tile_idx : Int
  inv_tile_idx : Int

/-- The ports of one `add_mos` call. -/
structure MOSPorts where
  g : Wire
  d : Wire
  s : Wire

/-- One `add_pin` call of `CurrentStarvedInvCore`. -/
structure CSPin where
  name : String
  wires : List Wire
  hide : Bool := false
  connect : Bool := false

/-- The `sch_params` dictionary set at the end of `draw_layout`. -/
structure CSSchParams where
  seg_p : Int
  seg_n : Int
  lch : Int
  w_p : Int
  w_n : Int
  th_n : Int
  th_p : Int
  stack_p : Int
  stack_n : Int

/-- The observable effect of a successful `CurrentStarvedInvCore.draw_layout`:
the pins added (in program order) and the schematic parameters.  `params` is
`self.params` after the call. -/
structure CSResult where
  params : CSInvParams
  pins : List CSPin
  sch_params : CSSchParams

/-- Model of `CurrentStarvedInvCore.track_to_track` (current_starved_inv.py,
lines 239-243): project a reference track to a coordinate and back onto the
target layer. -/
def CurrentStarvedInvCore.track_to_track (env : CSEnv) (targ_layer : Int) (ref : Wire) : Int :=
  env.coord_to_track targ_layer
    (env.track_to_coord (wireLayer env ref) (wireBaseIndex env ref))

/-- Model of `CurrentStarvedInvCore.connect_through` (current_starved_inv.py,
lines 245-275).  The Python `for next_layer in range(start+1, end)` loop is a
fold whose third component models the local variable `next_wire`, unassigned
(`none`) until the first iteration runs; the final
`connect_to_track_wires(next_wire, end_warr)` reads it, so a run in which the
loop body never executes raises `NameError` on the name `next_wire`. -/
def CurrentStarvedInvCore.connect_through (env : CSEnv) (first_warr second_warr : Wire)
    (connect_pt : Option Int) (connect_tidx : Option Int) : Except PyErr Wire :=
  let first_layer := wireLayer env first_warr
  let second_layer := wireLayer env second_warr
  let start_warr := if first_layer < second_layer then first_warr else second_warr
  let end_warr := if first_layer < second_layer then second_warr else first_warr
  if first_layer = second_layer then
    Except.ok (Wire.joined first_layer [first_warr, second_warr])
  else
    let _first_coord := env.track_to_coord first_layer (wireBaseIndex env first_warr)
    let coordRes : Except PyErr Int :=
      match connect_pt with
      | some pt => Except.ok pt
      | none =>
        match connect_tidx with
        | some t => Except.ok (env.track_to_coord second_layer t)
        | none =>
          Except.error (PyErr.valueError ("Must specify either connect_pt or connect_tidx"))
    match coordRes with
    | Except.error e => Except.error e
    | Except.ok second_coord =>
      let loopRes := (intRange (wireLayer env start_warr + 1) (wireLayer env end_warr)).foldl
        (fun (acc : Wire × Int × Option Wire) next_layer =>
          let next_tidx := env.coord_to_track next_layer acc.2.1
          let next_wire := Wire.tr [acc.1] next_layer next_tidx
          (next_wire, env.track_to_coord next_layer next_tidx, some next_wire))
        (start_warr, second_coord, (none : Option Wire))
      match loopRes.2.2 with
      | none => Except.error (PyErr.nameError ("next_wire"))
      | some next_wire => Except.ok (Wire.joined (wireLayer env end_warr) [next_wire, end_warr])

/-- Model of `CurrentStarvedInvCore.draw_layout` (current_starved_inv.py,
lines 80-237). -/
def CurrentStarvedInvCore.draw_layout (env : CSEnv) (p : CSInvParams) : Except PyErr CSResult :=
  let seg_p := if p.seg_p ≤ 0 then p.seg_inv else p.seg_p
  let seg_n := if p.seg_n ≤ 0 then p.seg_inv else p.seg_n
  if seg_p ≤ 0 ∨ seg_n ≤ 0 then
    Except.error (PyErr.valueError ("Invalid segments."))
  else
    let hm_layer := env.conn_layer + 1
    let vm_layer := hm_layer + 1
    if env.top_layer < vm_layer then
      Except.error (PyErr.valueError
        (("MOSBasePlaceInfo top layer must be at least ") ++ toString vm_layer))
    else
      let ti := p.inv_tile_idx
      let is_guarded := p.is_guarded ||
        (env.row_flip p.ridx_n_inv ti == env.row_flip p.ridx_p ti)
      let nports_mir : MOSPorts :=
        ⟨Wire.mosG p.ridx_n_mir, Wire.mosD p.ridx_n_mir, Wire.mosS p.ridx_n_mir⟩
      let nports_inv : MOSPorts :=
        ⟨Wire.mosG p.ridx_n_inv, Wire.mosD p.ridx_n_inv, Wire.mosS p.ridx_n_inv⟩
      let pports : MOSPorts :=
        ⟨Wire.mosG p.ridx_p, Wire.mosD p.ridx_p, Wire.mosS p.ridx_p⟩
      let nout_tidx := (p.sig_locs ("nout")).getD
        (env.track_index ti p.ridx_n_inv MOSWireType.ds_gate 1)
      let pout_tidx := (p.sig_locs ("pout")).getD
        (env.track_index ti p.ridx_p MOSWireType.ds_gate (-1))
      let pout := Wire.tr [pports.d] hm_layer pout_tidx
      let nout := Wire.tr [nports_inv.d] hm_layer nout_tidx
      let outInfo : CSPin × Option Int :=
        if p.vertical_out then
          let vm_tidx := (p.sig_locs ("out")).getD
            (env.coord_to_track vm_layer (env.wire_middle pout))
          ({ name := ("out"), wires := [Wire.tr [pout, nout] vm_layer vm_tidx] }, some vm_tidx)
        else
          ({ name := ("out"), wires := [pout, nout], connect := true }, none)
      let outPin := outInfo.1
      let vm_tidx := outInfo.2
      let inPins : List CSPin :=
        if is_guarded then
          let nin_tidx := (p.sig_locs ("nin")).getD
            (env.track_index ti p.ridx_n_inv MOSWireType.g 0)
          let pin_tidx := (p.sig_locs ("pin")).getD
            (env.track_index ti p.ridx_p MOSWireType.g (-1))
          let nin := Wire.tr [nports_inv.g] hm_layer nin_tidx
          let pin := Wire.tr [pports.g] hm_layer pin_tidx
          let base := [{ name := ("pin"), wires := [pin], hide := true },
                       { name := ("nin"), wires := [nin], hide := true }]
          if p.vertical_in then
            let in_tidx0 := env.find_next_track vm_layer (env.wire_lower nin)
            let in_tidx1 := match vm_tidx with
              | some vt => min in_tidx0 (env.next_track_down vm_layer vt)
              | none => in_tidx0
            let in_tidx := (p.sig_locs ("in")).getD in_tidx1
            base ++ [{ name := ("in"), wires := [Wire.tr [pin, nin] vm_layer in_tidx] }]
          else
            base ++ [{ name := ("in"), wires := [pin, nin], connect := true }]
        else
          let in_tidx := match p.sig_locs ("in") with
            | some t => t
            | none =>
              match p.sig_locs ("nin") with
              | some t => t
              | none => (p.sig_locs ("pin")).getD
                  (env.track_index ti p.ridx_n_inv MOSWireType.g 0)
          let in_warr := Wire.tr [nports_inv.g, pports.g] hm_layer in_tidx
          [{ name := ("in"), wires := [in_warr] },
           { name := ("pin"), wires := [in_warr], hide := true },
           { name := ("nin"), wires := [in_warr], hide := true }]
      let poutPin : CSPin := { name := ("pout"), wires := [pout], hide := true }
      let noutPin : CSPin := { name := ("nout"), wires := [nout], hide := true }
      let ref_v := Wire.tr [nports_mir.g] hm_layer
        (env.track_index ti p.ridx_n_mir MOSWireType.g 0)
      let refPin : CSPin := { name := ("ref_v"), wires := [ref_v] }
      let ns_tie := Wire.tr [nports_inv.s] hm_layer
        (env.track_index ti p.ridx_n_inv MOSWireType.ds_gate 0)
      let ns_tidx := match vm_tidx with
        | some vt =>
          if vt ≠ 0 then env.next_track_down vm_layer vt
          else CurrentStarvedInvCore.track_to_track env vm_layer nports_mir.d
        | none => CurrentStarvedInvCore.track_to_track env vm_layer nports_mir.d
      let ns := Wire.tr [ns_tie] vm_layer ns_tidx
      let ns_mir_tidx := env.track_index ti p.ridx_n_mir MOSWireType.ds_gate 0
      match CurrentStarvedInvCore.connect_through env ns nports_mir.d none (some ns_mir_tidx) with
      | Except.error e => Except.error e
      | Except.ok _ =>
        if p.vertical_sup then
          let vddPin : CSPin := { name := ("VDD"), wires := [pports.s], connect := true }
          let vssPin : CSPin := { name := ("VSS"), wires := [nports_mir.s], connect := true }
          let default_wp := env.row_width ti p.ridx_p
          let default_wn := env.row_width ti p.ridx_n_inv
          Except.ok
            { params := p
              pins := [outPin] ++ inPins ++ [poutPin, noutPin, refPin, vddPin, vssPin]
              sch_params :=
                { seg_p := seg_p
                  seg_n := seg_n
                  lch := env.lch ti
                  w_p := if p.w_p = 0 then default_wp else p.w_p
                  w_n := if p.w_n = 0 then default_wn else p.w_n
                  th_n := env.row_threshold ti p.ridx_n_inv
                  th_p := env.row_threshold ti p.ridx_p
                  stack_p := p.stack_p
                  stack_n := p.stack_n } }
        else
          Except.error (PyErr.notImplementedError
            ("Current-starved inverters currently do not support horizontal supply rails."))

/-- `range(a, b)` is empty when `b <= a`. -/
theorem intRange_nil (a b : Int) (h : b ≤ a) : intRange a b = [] := by
  unfold intRange
  have h0 : (b - a).toNat = 0 := by omega
  rw [h0]
  rfl

/-- `range(a, a + 1)` is the singleton `[a]`. -/
theorem intRange_one (a : Int) : intRange a (a + 1) = [a] := by
  unfold intRange
  have h1 : (a + 1 - a).toNat = 1 := by omega
  have h2 : List.range 1 = [0] := rfl
  rw [h1, h2]
  simp

/-- The wire `connect_through` builds between a vm-layer wire and a raw drain
two layers below it (the only call in `draw_layout`). -/
def ctTwoResult (env : CSEnv) (ws : List Wire) (t1 tidx : Int) (r : Int) : Wire :=
  Wire.joined (env.conn_layer + 1 + 1)
    [Wire.tr [Wire.mosD r] (env.conn_layer + 1)
      (env.coord_to_track (env.conn_layer + 1) (env.track_to_coord env.conn_layer tidx)),
     Wire.tr ws (env.conn_layer + 1 + 1) t1]

/-- `connect_through` succeeds on wires exactly two layers apart, hopping once
through the intermediate layer. -/
theorem connect_through_two (env : CSEnv) (ws : List Wire) (t1 tidx : Int) (r : Int) :
    CurrentStarvedInvCore.connect_through env (Wire.tr ws (env.conn_layer + 1 + 1) t1)
      (Wire.mosD r) none (some tidx) = Except.ok (ctTwoResult env ws t1 tidx r) := by
  have hne : ¬ ((env.conn_layer + 1 + 1) = env.conn_layer) := by omega
  have hnlt : ¬ ((env.conn_layer + 1 + 1) < env.conn_layer) := by omega
  simp only [CurrentStarvedInvCore.connect_through, wireLayer, if_neg hne, if_neg hnlt,
    intRange_one, List.foldl, ctTwoResult]

/-- On two wires whose layers differ by exactly one, `connect_through` never
returns a wire: it raises the documented ValueError when neither connect
point nor connect track is given and otherwise hits the unassigned local
`next_wire`. -/
theorem connect_through_adjacent (env : CSEnv) (w1 w2 : Wire) (pt tidx : Option Int)
    (hd : (wireLayer env w1 - wireLayer env w2).natAbs = 1) :
    CurrentStarvedInvCore.connect_through env w1 w2 pt tidx =
      (if pt.isNone ∧ tidx.isNone then
        Except.error (PyErr.valueError ("Must specify either connect_pt or connect_tidx"))
      else Except.error (PyErr.nameError ("next_wire"))) := by
  have hne : ¬ (wireLayer env w1 = wireLayer env w2) := by omega
  have hr : intRange
      (wireLayer env (if wireLayer env w1 < wireLayer env w2 then w1 else w2) + 1)
      (wireLayer env (if wireLayer env w1 < wireLayer env w2 then w2 else w1)) = [] := by
    rcases lt_or_gt_of_ne hne with hlt | hgt
    · rw [if_pos hlt, if_pos hlt]
      exact intRange_nil _ _ (by omega)
    · rw [if_neg (by omega : ¬ wireLayer env w1 < wireLayer env w2),
          if_neg (by omega : ¬ wireLayer env w1 < wireLayer env w2)]
      exact intRange_nil _ _ (by omega)
  simp only [CurrentStarvedInvCore.connect_through]
  rw [if_neg hne, hr]
  rcases pt with _ | pv
  · rcases tidx with _ | tv
    · simp
    · simp [List.foldl]
  · simp [List.foldl]

/-- C9: `connect_through` is incomplete on adjacent layers.  When the two
wires' layer ids differ by exactly 1 and a connect point or connect track
index is supplied, the loop over intermediate layers runs zero times and the
final statement reads the never-assigned local `next_wire`, so the call fails
with a NameError rather than returning a wire or raising the documented
ValueError; it returns normally only when the layers are equal or differ by
at least 2. -/
theorem connect_through_adjacent_name_error (env : CSEnv) (w1 w2 : Wire)
    (pt tidx : Option Int) :
    ((wireLayer env w1 - wireLayer env w2).natAbs = 1 →
      (pt.isSome ∨ tidx.isSome) →
      CurrentStarvedInvCore.connect_through env w1 w2 pt tidx =
        Except.error (PyErr.nameError ("next_wire"))) ∧
    (∀ w, CurrentStarvedInvCore.connect_through env w1 w2 pt tidx = Except.ok w →
      wireLayer env w1 = wireLayer env w2 ∨
      2 ≤ (wireLayer env w1 - wireLayer env w2).natAbs) := by
  constructor
  · intro hd hsome
    rw [connect_through_adjacent env w1 w2 pt tidx hd]
    have hnn : ¬ (pt.isNone ∧ tidx.isNone) := by
      rcases hsome with h | h
      · intro ⟨h1, _⟩
        rcases pt with _ | pv
        · simp at h
        · simp at h1
      · intro ⟨_, h2⟩
        rcases tidx with _ | tv
        · simp at h
        · simp at h2
    rw [if_neg hnn]
  · intro w hok
    by_contra hc
    push_neg at hc
    obtain ⟨hne, hlt⟩ := hc
    have hd : (wireLayer env w1 - wireLayer env w2).natAbs = 1 := by omega
    rw [connect_through_adjacent env w1 w2 pt tidx hd] at hok
    split at hok
    · exact Except.noConfusion hok
    · exact Except.noConfusion hok

/-- A concrete environment in which all framework lookups are trivial. -/
def csEnv0 : CSEnv :=
  { conn_layer := 1
    top_layer := 3
    row_flip := fun _ _ => false
    track_index := fun _ _ _ _ => 0
    coord_to_track := fun _ _ => 0
    track_to_coord := fun _ _ => 0
    find_next_track := fun _ _ => 0
    next_track_down := fun _ _ => 0
    wire_middle := fun _ => 0
    wire_lower := fun _ => 0
    wire_base := fun _ => 0
    row_width := fun _ _ => 4
    row_threshold := fun _ _ => 0
    lch := fun _ => 36 }

/-- Witness for C9: a concrete pair of wires on layers 3 and 4 with a connect
track supplied makes `connect_through` fail with the NameError. -/
theorem connect_through_adjacent_name_error_witness :
    CurrentStarvedInvCore.connect_through csEnv0 (Wire.tr [] 3 0) (Wire.tr [] 4 0)
      none (some 5) = Except.error (PyErr.nameError ("next_wire")) :=
  (connect_through_adjacent_name_error csEnv0 (Wire.tr [] 3 0) (Wire.tr [] 4 0)
    none (some 5)).1 (by decide) (Or.inr rfl)

/-- The top-layer error message is never the segment error message. -/
theorem mos_msg_ne (t : String) :
    (("MOSBasePlaceInfo top layer must be at least ") ++ t) ≠ ("Invalid segments.") := by
  intro h
  have hl := congrArg String.length h
  rw [String.length_append] at hl
  have h1 : String.length ("MOSBasePlaceInfo top layer must be at least ") = 44 := rfl
  have h2 : String.length ("Invalid segments.") = 17 := rfl
  rw [h1, h2] at hl
  omega

/-- C2: `CurrentStarvedInvCore.draw_layout` first replaces seg_p by seg_inv
when the given seg_p <= 0, and seg_n by seg_inv when the given seg_n <= 0,
and then raises ValueError with message Invalid segments. exactly when a
resulting segment count is still nonpositive - equivalently, exactly when
seg_inv <= 0 and at least one of the given seg_p, seg_n is <= 0. -/
theorem csinv_invalid_segments_iff (env : CSEnv) (p : CSInvParams) :
    (CurrentStarvedInvCore.draw_layout env p =
        Except.error (PyErr.valueError ("Invalid segments.")) ↔
      ((if p.seg_p ≤ 0 then p.seg_inv else p.seg_p) ≤ 0 ∨
       (if p.seg_n ≤ 0 then p.seg_inv else p.seg_n) ≤ 0)) ∧
    (CurrentStarvedInvCore.draw_layout env p =
        Except.error (PyErr.valueError ("Invalid segments.")) ↔
      (p.seg_inv ≤ 0 ∧ (p.seg_p ≤ 0 ∨ p.seg_n ≤ 0))) := by
  have hequiv : (((if p.seg_p ≤ 0 then p.seg_inv else p.seg_p) ≤ 0 ∨
      (if p.seg_n ≤ 0 then p.seg_inv else p.seg_n) ≤ 0)) ↔
      (p.seg_inv ≤ 0 ∧ (p.seg_p ≤ 0 ∨ p.seg_n ≤ 0)) := by
    split_ifs <;> omega
  have hmain : CurrentStarvedInvCore.draw_layout env p =
      Except.error (PyErr.valueError ("Invalid segments.")) ↔
      ((if p.seg_p ≤ 0 then p.seg_inv else p.seg_p) ≤ 0 ∨
       (if p.seg_n ≤ 0 then p.seg_inv else p.seg_n) ≤ 0) := by
    by_cases hseg : ((if p.seg_p ≤ 0 then p.seg_inv else p.seg_p) ≤ 0 ∨
        (if p.seg_n ≤ 0 then p.seg_inv else p.seg_n) ≤ 0)
    · simp only [CurrentStarvedInvCore.draw_layout, if_pos hseg]
      exact iff_of_true trivial hseg
    · refine iff_of_false ?_ hseg
      intro h
      simp only [CurrentStarvedInvCore.draw_layout, if_neg hseg] at h
      by_cases htop : env.top_layer < env.conn_layer + 1 + 1
      · rw [if_pos htop] at h
        injection h with h1
        injection h1 with h2
        exact mos_msg_ne _ h2
      · rw [if_neg htop, connect_through_two] at h
        dsimp only at h
        by_cases hvs : p.vertical_sup = true
        · rw [if_pos hvs] at h
          exact Except.noConfusion h
        · rw [if_neg hvs] at h
          injection h with h1
          exact PyErr.noConfusion h1
  exact ⟨hmain, hmain.trans hequiv⟩

/-- C7: the schematic parameters of a successful `draw_layout` record seg_p
and seg_n post-defaulting (seg_inv substituted for a nonpositive given
value), and w_p / w_n as the row default width when the given parameter is 0
and as the given value otherwise. -/
theorem csinv_sch_params_values (env : CSEnv) (p : CSInvParams) (r : CSResult)
    (h : CurrentStarvedInvCore.draw_layout env p = Except.ok r) :
    r.sch_params.seg_p = (if p.seg_p ≤ 0 then p.seg_inv else p.seg_p) ∧
    r.sch_params.seg_n = (if p.seg_n ≤ 0 then p.seg_inv else p.seg_n) ∧
    r.sch_params.w_p =
      (if p.w_p = 0 then env.row_width p.inv_tile_idx p.ridx_p else p.w_p) ∧
    r.sch_params.w_n =
      (if p.w_n = 0 then env.row_width p.inv_tile_idx p.ridx_n_inv else p.w_n) := by
  simp only [CurrentStarvedInvCore.draw_layout] at h
  by_cases hseg : ((if p.seg_p ≤ 0 then p.seg_inv else p.seg_p) ≤ 0 ∨
      (if p.seg_n ≤ 0 then p.seg_inv else p.seg_n) ≤ 0)
  · rw [if_pos hseg] at h
    exact Except.noConfusion h
  · rw [if_neg hseg] at h
    by_cases htop : env.top_layer < env.conn_layer + 1 + 1
    · rw [if_pos htop] at h
      exact Except.noConfusion h
    · rw [if_neg htop, connect_through_two] at h
      dsimp only at h
      by_cases hvs : p.vertical_sup = true
      · rw [if_pos hvs] at h
        cases h
        exact ⟨rfl, rfl, rfl, rfl⟩
      · rw [if_neg hvs] at h
        exact Except.noConfusion h

/-- A parameter set on which `draw_layout` succeeds: seg_p defaults to
seg_inv, w_p defaults to the row width, both nmos values are given. -/
def csP0 : CSInvParams :=
  { seg_inv := 2, seg_mir := 1, seg_p := -1, seg_n := 3, stack_p := 1, stack_n := 1,
    w_p := 0, w_n := 5, ridx_p := -1, ridx_n_inv := 1, ridx_n_mir := 0,
    is_guarded := false, sig_locs := fun _ => none, vertical_out := true,
    vertical_sup := true, vertical_in := true,
    ptap_tile_idx := 2, ntap_tile_idx := 0, inv_tile_idx := 0 }

/-- The result of `draw_layout` on `csEnv0`, `csP0`. -/
def csRes0 : CSResult :=
  match CurrentStarvedInvCore.draw_layout csEnv0 csP0 with
  | Except.ok r => r
  | Except.error _ =>
    { params := csP0, pins := []
      sch_params := { seg_p := 0, seg_n := 0, lch := 0, w_p := 0, w_n := 0,
                      th_n := 0, th_p := 0, stack_p := 0, stack_n := 0 } }

/-- Witness for C7 on the concrete run `csEnv0`, `csP0`. -/
theorem csinv_sch_params_values_witness :
    csRes0.sch_params.seg_p = (if csP0.seg_p ≤ 0 then csP0.seg_inv else csP0.seg_p) ∧
    csRes0.sch_params.seg_n = (if csP0.seg_n ≤ 0 then csP0.seg_inv else csP0.seg_n) ∧
    csRes0.sch_params.w_p =
      (if csP0.w_p = 0 then csEnv0.row_width csP0.inv_tile_idx csP0.ridx_p else csP0.w_p) ∧
    csRes0.sch_params.w_n =
      (if csP0.w_n = 0 then csEnv0.row_width csP0.inv_tile_idx csP0.ridx_n_inv else csP0.w_n) :=
  csinv_sch_params_values csEnv0 csP0 csRes0 rfl

/-- C8: `draw_layout` takes the guarded routing branch (hidden pin and nin
wires drawn separately, then the in pin) exactly when `is_guarded` is set or
the nmos inverter row and the pmos row have equal flip orientation; the
parameter can force guarding on but never off. -/
theorem csinv_guarded_branch (env : CSEnv) (p : CSInvParams) (r : CSResult)
    (h : CurrentStarvedInvCore.draw_layout env p = Except.ok r) :
    r.pins.map CSPin.name =
      (if p.is_guarded || (env.row_flip p.ridx_n_inv p.inv_tile_idx ==
          env.row_flip p.ridx_p p.inv_tile_idx) then
        [("out"), ("pin"), ("nin"), ("in"), ("pout"), ("nout"), ("ref_v"), ("VDD"), ("VSS")]
      else
        [("out"), ("in"), ("pin"), ("nin"), ("pout"), ("nout"), ("ref_v"), ("VDD"), ("VSS")]) := by
  simp only [CurrentStarvedInvCore.draw_layout] at h
  by_cases hseg : ((if p.seg_p ≤ 0 then p.seg_inv else p.seg_p) ≤ 0 ∨
      (if p.seg_n ≤ 0 then p.seg_inv else p.seg_n) ≤ 0)
  · rw [if_pos hseg] at h
    exact Except.noConfusion h
  · rw [if_neg hseg] at h
    by_cases htop : env.top_layer < env.conn_layer + 1 + 1
    · rw [if_pos htop] at h
      exact Except.noConfusion h
    · rw [if_neg htop, connect_through_two] at h
      dsimp only at h
      by_cases hvs : p.vertical_sup = true
      · rw [if_pos hvs] at h
        cases h
        by_cases hg : (p.is_guarded || (env.row_flip p.ridx_n_inv p.inv_tile_idx ==
            env.row_flip p.ridx_p p.inv_tile_idx)) = true
        · by_cases hv : p.vertical_out = true <;> by_cases hvi : p.vertical_in = true <;>
            simp [hg, hv, hvi]
        · by_cases hv : p.vertical_out = true <;> simp [hg, hv]
      · rw [if_neg hvs] at h
        exact Except.noConfusion h

/-- Witness for C8 on the concrete run `csEnv0`, `csP0` (equal row flips, so
the guarded branch is taken although `is_guarded` is false). -/
theorem csinv_guarded_branch_witness :
    csRes0.pins.map CSPin.name =
      (if csP0.is_guarded || (csEnv0.row_flip csP0.ridx_n_inv csP0.inv_tile_idx ==
          csEnv0.row_flip csP0.ridx_p csP0.inv_tile_idx) then
        [("out"), ("pin"), ("nin"), ("in"), ("pout"), ("nout"), ("ref_v"), ("VDD"), ("VSS")]
      else
        [("out"), ("in"), ("pin"), ("nin"), ("pout"), ("nout"), ("ref_v"), ("VDD"), ("VSS")]) :=
  csinv_guarded_branch csEnv0 csP0 csRes0 rfl

/-- A parameter set with `vertical_sup = False` whose segment counts are all
defaulted (seg_inv, seg_p, seg_n all -1, the `get_default_param_values`
defaults). -/
def csPBad : CSInvParams :=
  { seg_inv := -1, seg_mir := 1, seg_p := -1, seg_n := -1, stack_p := 1, stack_n := 1,
    w_p := 0, w_n := 0, ridx_p := -1, ridx_n_inv := 1, ridx_n_mir := 0,
    is_guarded := false, sig_locs := fun _ => none, vertical_out := true,
    vertical_sup := false, vertical_in := true,
    ptap_tile_idx := 2, ntap_tile_idx := 0, inv_tile_idx := 0 }

/-- Counterexample to C10 as stated: a parameter set with vertical_sup =
False on which `draw_layout` raises ValueError (Invalid segments.), not
NotImplementedError, because segment validation fails first. -/
theorem csinv_vertical_sup_counterexample :
    csPBad.vertical_sup = false ∧
    CurrentStarvedInvCore.draw_layout csEnv0 csPBad =
      Except.error (PyErr.valueError ("Invalid segments.")) :=
  ⟨rfl, rfl⟩

/-- C10 (amended): for every parameter set passing segment and top-layer
validation, `draw_layout` raises NotImplementedError when vertical_sup is
False; when vertical_sup is True it instead adds the VDD pin from the pmos
source ports and the VSS pin from the mirror nmos source ports. -/
theorem csinv_vertical_sup_amended (env : CSEnv) (p : CSInvParams)
    (hseg : ¬ ((if p.seg_p ≤ 0 then p.seg_inv else p.seg_p) ≤ 0 ∨
               (if p.seg_n ≤ 0 then p.seg_inv else p.seg_n) ≤ 0))
    (htop : ¬ (env.top_layer < env.conn_layer + 1 + 1)) :
    (p.vertical_sup = false →
      CurrentStarvedInvCore.draw_layout env p =
        Except.error (PyErr.notImplementedError
          ("Current-starved inverters currently do not support horizontal supply rails."))) ∧
    (p.vertical_sup = true →
      ∃ r, CurrentStarvedInvCore.draw_layout env p = Except.ok r ∧
        CSPin.mk ("VDD") [Wire.mosS p.ridx_p] false true ∈ r.pins ∧
        CSPin.mk ("VSS") [Wire.mosS p.ridx_n_mir] false true ∈ r.pins) := by
  constructor
  · intro hvs
    simp only [CurrentStarvedInvCore.draw_layout, if_neg hseg, if_neg htop,
      connect_through_two, hvs]
    rfl
  · intro hvs
    simp only [CurrentStarvedInvCore.draw_layout, if_neg hseg, if_neg htop,
      connect_through_two, hvs]
    refine ⟨_, rfl, ?_, ?_⟩ <;> simp [List.mem_append]

/-- `csP0` with vertical supplies turned off (all other values valid). -/
def csPH : CSInvParams :=
  { csP0 with vertical_sup := false }

/-- Witness for the amended C10: the concrete run raises the
NotImplementedError. -/
theorem csinv_vertical_sup_amended_witness :
    CurrentStarvedInvCore.draw_layout csEnv0 csPH =
      Except.error (PyErr.notImplementedError
        ("Current-starved inverters currently do not support horizontal supply rails.")) :=
  (csinv_vertical_sup_amended csEnv0 csPH (by decide) (by decide)).1 rfl

/-- Symbolic wires of the differential inverter layout: a named pin of a
placed sub-instance, a routed wire, or wires merged by `connect_wires`. -/
inductive IWire where
  | instPin (inst : String) (name : String)
  | tr (src : List IWire) (layer : Int) (tidx : Int)
  | joined (ws : List IWire)

/-- Framework state consulted by `InvDiffCore.draw_layout`. -/
structure InvDiffEnv where
  conn_layer : Int
  min_sep_col : Int
  inv_kp_ncols : Int
  inv_drv_ncols : Int
  sd_pitch : Int
  track_index : Int → Int → Int
  coord_to_track : Int → Int → Int
  next_track : Int → Int → Int
  place_wires2 : Int → Int → Int → Int × Int
  wire_lower : IWire → Int
  wire_upper : IWire → Int
  wire_tidx : IWire → Int
  kp_sch : Int
  drv_sch : Int

/-- Parameters of `InvDiffCore.draw_layout` after merging the defaults. -/
structure InvDiffParams where
  w_p : Int
  w_n : Int
  ridx_p : Int
  ridx_n : Int
  vertical_in : Bool
  sep_vert_in : Bool
  sep_vert_out : Bool
  seg_kp : Int
  seg_drv : Int

/-- One `add_pin` call of `InvDiffCore`. -/
structure IDPin where
  name : String
  wire : IWire

/-- Effect of a successful `InvDiffCore.draw_layout`: pins added in program
order and the (inv_in, inv_fb) master schematic parameter tokens. -/
structure InvDiffResult where
  params : InvDiffParams
  pins : List IDPin
  sch_params : Int × Int

/-- Model of `InvDiffCore.draw_layout` (inv_diff.py, lines 56-183).  The two
InvCore masters are opaque templates; their schematic parameters are the env
tokens `drv_sch` and `kp_sch`.  The four placed instances are identified by
their source variable names. -/
def InvDiffCore.draw_layout (env : InvDiffEnv) (p : InvDiffParams) :
    Except PyErr InvDiffResult :=
  let sep_vert_in := p.sep_vert_in && p.vertical_in
  let _pg0_tidx := env.track_index p.ridx_p 0
  let _ng0_tidx := env.track_index p.ridx_n 1
  let blk_sp := env.min_sep_col
  let cur_col0 := if sep_vert_in then blk_sp else 0
  let cur_col1 := cur_col0 + env.inv_drv_ncols + blk_sp + env.inv_kp_ncols
  let cur_col := cur_col1 + blk_sp * (if p.sep_vert_out then 1 else 0)
  let vdd_list := [IWire.instPin ("inv_in") ("VDD"), IWire.instPin ("inv_inb") ("VDD"),
                   IWire.instPin ("inv_fb0") ("VDD"), IWire.instPin ("inv_fb1") ("VDD")]
  let vss_list := [IWire.instPin ("inv_in") ("VSS"), IWire.instPin ("inv_inb") ("VSS"),
                   IWire.instPin ("inv_fb0") ("VSS"), IWire.instPin ("inv_fb1") ("VSS")]
  let supply_pins : List IDPin := [{ name := ("VDD"), wire := IWire.joined vdd_list },
                                   { name := ("VSS"), wire := IWire.joined vss_list }]
  let hm_layer := env.conn_layer + 1
  let vm_layer := hm_layer + 1
  let inPins : List IDPin :=
    if p.vertical_in then
      let close_track := env.coord_to_track
        (env.wire_lower (IWire.instPin ("inv_in") ("nin"))) vm_layer
      let vm_locs := env.place_wires2 vm_layer close_track (-1)
      let td := if sep_vert_in then (vm_locs.1, vm_locs.2) else (vm_locs.2, vm_locs.2)
      [{ name := ("in"), wire := IWire.tr [IWire.instPin ("inv_in") ("nin")] vm_layer td.1 },
       { name := ("inb"), wire := IWire.tr [IWire.instPin ("inv_inb") ("nin")] vm_layer td.2 }]
    else
      [{ name := ("in"), wire := IWire.instPin ("inv_in") ("nin") },
       { name := ("inb"), wire := IWire.instPin ("inv_inb") ("nin") }]
  let _tidx1 := env.coord_to_track vm_layer (cur_col * env.sd_pitch)
  if p.sep_vert_out then
    Except.error (PyErr.notImplementedError ("Not implemented yet."))
  else
    let mid_coord := env.wire_upper (IWire.instPin ("inv_in") ("nin"))
    let mid_tidx := env.next_track vm_layer (env.coord_to_track vm_layer mid_coord)
    let vm_locs := env.place_wires2 vm_layer mid_tidx 0
    let mid := IWire.tr
      [IWire.instPin ("inv_in") ("pout"), IWire.instPin ("inv_in") ("nout"),
       IWire.instPin ("inv_fb0") ("pout"), IWire.instPin ("inv_fb0") ("nout"),
       IWire.instPin ("inv_fb1") ("nin")] vm_layer vm_locs.2
    let midb := IWire.tr
      [IWire.instPin ("inv_inb") ("pout"), IWire.instPin ("inv_inb") ("nout"),
       IWire.instPin ("inv_fb1") ("pout"), IWire.instPin ("inv_fb1") ("nout"),
       IWire.instPin ("inv_fb0") ("nin")] vm_layer vm_locs.1
    let out_hm := IWire.tr [mid] hm_layer
      (env.wire_tidx (IWire.instPin ("inv_in") ("nin")))
    let outb_hm := IWire.tr [midb] hm_layer
      (env.wire_tidx (IWire.instPin ("inv_inb") ("nin")))
    Except.ok
      { params := p
        pins := supply_pins ++ inPins ++
          [{ name := ("out"), wire := out_hm }, { name := ("outb"), wire := outb_hm }]
        sch_params := (env.drv_sch, env.kp_sch) }

/-- Symbolic wires of the inverter chain layout: a named pin of chain driver
number `inst`, or wires merged by `connect_wires`. -/
inductive CWire where
  | instPin (inst : Int) (name : String)
  | joined (ws : List CWire)

/-- Framework state consulted by `InvDiffChain.draw_layout`: the column
separation, the differential-inverter master's width and its schematic
parameter token. -/
structure ChainEnv where
  min_sep_col : Int
  drv_ncols : Int
  drv_sch : Int

/-- Parameters of `InvDiffChain.draw_layout` after merging the defaults. -/
structure ChainParams where
  w_p : Int
  w_n : Int
  ridx_p : Int
  ridx_n : Int
  vertical_in : Bool
  sep_vert_in : Bool
  sep_vert_out : Bool
  seg_kp : Int
  seg_drv : Int
  length : Int
  label_nodes : Bool

/-- One `add_pin` call of `InvDiffChain`. -/
structure CPin where
  name : String
  wire : CWire

/-- Effect of a successful `InvDiffChain.draw_layout`: the column of each
placed driver, the chain connections (node, node_b) in loop order, the pins
added in program order, and the schematic parameters. -/
structure ChainResult where
  params : ChainParams
  cols : List Int
  conns : List (CWire × CWire)
  pins : List CPin
  sch_length : Int
  sch_label_nodes : Bool
  sch_inv_diff : Int

/-- Model of `InvDiffChain.draw_layout` (inv_diff_chain.py, lines 60-139).
Driver `i` is placed at column `start + i * (drv_size + blk_sp)`; the Python
`connect_wires(vdd_list)[0]`, `drivers[0]` and `drivers[-1]` index nonempty
lists exactly when `length >= 1`, which the emptiness check below guards (an
empty chain raises IndexError in Python). -/
def InvDiffChain.draw_layout (env : ChainEnv) (p : ChainParams) :
    Except PyErr ChainResult :=
  let sep_vert_in := p.sep_vert_in && p.vertical_in
  let blk_sp := env.min_sep_col
  let start_col := if sep_vert_in then blk_sp else 0
  let drv_size := env.drv_ncols
  let drivers := intRange 0 p.length
  let cols := drivers.map (fun i => start_col + (drv_size + blk_sp) * i)
  if drivers.isEmpty then
    Except.error (PyErr.indexError ("list index out of range"))
  else
    let vddw := CWire.joined (drivers.map (fun i => CWire.instPin i ("VDD")))
    let vssw := CWire.joined (drivers.map (fun i => CWire.instPin i ("VSS")))
    let supply_pins : List CPin :=
      [{ name := ("VDD"), wire := vddw }, { name := ("VSS"), wire := vssw }]
    let idxs := intRange 1 p.length
    let conns := idxs.map (fun i =>
      (CWire.joined [CWire.instPin i ("in"), CWire.instPin (i - 1) ("out")],
       CWire.joined [CWire.instPin i ("inb"), CWire.instPin (i - 1) ("outb")]))
    let node_pins : List CPin :=
      if p.label_nodes then
        idxs.map (fun i =>
          { name := ("node<") ++ toString i ++ (">")
            wire := CWire.joined [CWire.instPin i ("in"), CWire.instPin (i - 1) ("out")] })
      else []
    let d0 := (drivers.head?).getD 0
    let dl := (drivers.getLast?).getD 0
    let io_pins : List CPin :=
      [{ name := ("in"), wire := CWire.instPin d0 ("in") },
       { name := ("inb"), wire := CWire.instPin d0 ("inb") },
       { name := ("out"), wire := CWire.instPin dl ("out") },
       { name := ("outb"), wire := CWire.instPin dl ("outb") }]
    Except.ok
      { params := p
        cols := cols
        conns := conns
        pins := supply_pins ++ node_pins ++ io_pins
        sch_length := p.length
        sch_label_nodes := p.label_nodes
        sch_inv_diff := env.drv_sch }

/-- Length of the Python range. -/
theorem intRange_length (a b : Int) : (intRange a b).length = (b - a).toNat := by
  unfold intRange
  rw [List.length_map, List.length_range]

/-- A nonempty Python range. -/
theorem intRange_ne_nil (a b : Int) (h : a < b) : intRange a b ≠ [] := by
  intro hnil
  have hlen := congrArg List.length hnil
  rw [intRange_length] at hlen
  simp at hlen
  omega

/-- Membership in the Python range. -/
theorem intRange_mem (a b i : Int) (h1 : a ≤ i) (h2 : i < b) : i ∈ intRange a b := by
  unfold intRange
  exact List.mem_map.mpr ⟨(i - a).toNat, List.mem_range.mpr (by omega), by omega⟩

/-- First element of a nonempty Python range. -/
theorem intRange_head (a b : Int) (h : a < b) : (intRange a b).head? = some a := by
  unfold intRange
  obtain ⟨k, hk⟩ : ∃ k, (b - a).toNat = k + 1 := ⟨(b - a).toNat - 1, by omega⟩
  rw [hk, List.range_succ_eq_map]
  simp

/-- Last element of a nonempty Python range. -/
theorem intRange_getLast (a b : Int) (h : a < b) : (intRange a b).getLast? = some (b - 1) := by
  unfold intRange
  obtain ⟨k, hk⟩ : ∃ k, (b - a).toNat = k + 1 := ⟨(b - a).toNat - 1, by omega⟩
  rw [hk, List.range_succ, List.map_append, List.map_singleton, List.getLast?_concat]
  congr 1
  omega

/-- A node label is longer than any of the fixed pin names of the chain. -/
theorem node_name_ne (t s : String) (hs : s.length ≤ 4) :
    (("node<") ++ t ++ (">")) ≠ s := by
  intro hcontra
  have hl := congrArg String.length hcontra
  rw [String.length_append, String.length_append] at hl
  have h5 : String.length ("node<") = 5 := rfl
  have h1 : String.length (">") = 1 := rfl
  rw [h5, h1] at hl
  omega

/-- C5: for every length >= 1, `InvDiffChain.draw_layout` places `length`
copies of the differential-inverter master, connects driver i-1's out pin to
driver i's in pin and its outb pin to driver i's inb pin for 1 <= i <
length, exports in and inb from driver 0 and out and outb from driver
length-1, and adds a pin node<i> for internal node i exactly when
label_nodes is true. -/
theorem inv_diff_chain_draw_layout (env : ChainEnv) (p : ChainParams)
    (h : 1 ≤ p.length) :
    ∃ r, InvDiffChain.draw_layout env p = Except.ok r ∧
      r.cols.length = p.length.toNat ∧
      (∀ i : Int, 1 ≤ i → i < p.length →
        (CWire.joined [CWire.instPin i ("in"), CWire.instPin (i - 1) ("out")],
         CWire.joined [CWire.instPin i ("inb"), CWire.instPin (i - 1) ("outb")]) ∈ r.conns) ∧
      CPin.mk ("in") (CWire.instPin 0 ("in")) ∈ r.pins ∧
      CPin.mk ("inb") (CWire.instPin 0 ("inb")) ∈ r.pins ∧
      CPin.mk ("out") (CWire.instPin (p.length - 1) ("out")) ∈ r.pins ∧
      CPin.mk ("outb") (CWire.instPin (p.length - 1) ("outb")) ∈ r.pins ∧
      (∀ i : Int, 1 ≤ i → i < p.length →
        ((∃ w, CPin.mk (("node<") ++ toString i ++ (">")) w ∈ r.pins) ↔
          p.label_nodes = true)) := by
  have hemp : ¬ (intRange 0 p.length).isEmpty = true := by
    simp only [List.isEmpty_iff]
    exact intRange_ne_nil 0 p.length (by omega)
  simp only [InvDiffChain.draw_layout, if_neg hemp,
    intRange_head 0 p.length (by omega), intRange_getLast 0 p.length (by omega),
    Option.getD_some]
  refine ⟨_, rfl, ?_, ?_, ?_, ?_, ?_, ?_, ?_⟩
  · rw [List.length_map, intRange_length]
    omega
  · intro i h1 h2
    exact List.mem_map_of_mem _ (intRange_mem 1 p.length i h1 h2)
  · simp [List.mem_append]
  · simp [List.mem_append]
  · simp [List.mem_append]
  · simp [List.mem_append]
  · intro i h1 h2
    by_cases hl : p.label_nodes = true
    · refine iff_of_true ?_ hl
      refine ⟨CWire.joined [CWire.instPin i ("in"), CWire.instPin (i - 1) ("out")], ?_⟩
      refine List.mem_append.mpr (Or.inl (List.mem_append.mpr (Or.inr ?_)))
      rw [if_pos hl]
      exact List.mem_map_of_mem _ (intRange_mem 1 p.length i h1 h2)
    · refine iff_of_false ?_ hl
      intro ⟨w, hw⟩
      rw [if_neg hl] at hw
      simp only [List.append_nil, List.mem_append, List.mem_cons,
        List.not_mem_nil, or_false, CPin.mk.injEq] at hw
      rcases hw with (⟨hn, -⟩ | ⟨hn, -⟩) | (⟨hn, -⟩ | ⟨hn, -⟩ | ⟨hn, -⟩ | ⟨hn, -⟩) <;>
        exact node_name_ne _ _ (by decide) hn

/-- A concrete chain environment and parameter set with length 3 and node
labels enabled. -/
def chEnv0 : ChainEnv := { min_sep_col := 2, drv_ncols := 8, drv_sch := 7 }

/-- Chain parameters: length 3, label_nodes true. -/
def chP0 : ChainParams :=
  { w_p := 0, w_n := 0, ridx_p := -1, ridx_n := 0, vertical_in := false,
    sep_vert_in := false, sep_vert_out := false, seg_kp := 2, seg_drv := 4,
    length := 3, label_nodes := true }

/-- Witness for C5 at length 3. -/
theorem inv_diff_chain_draw_layout_witness :
    ∃ r, InvDiffChain.draw_layout chEnv0 chP0 = Except.ok r ∧
      r.cols.length = chP0.length.toNat := by
  obtain ⟨r, h1, h2, -⟩ := inv_diff_chain_draw_layout chEnv0 chP0 (by decide)
  exact ⟨r, h1, h2⟩

/-- C6: parameters are read once at generation time and never written back.
For each of the four generators, the parameter record carried through the
model is the same after a successful call as before it; only local copies
(seg_p, seg_n, is_guarded, sep_vert_in, ...) are rebound.  The stateful
parts of the result (pins, arrays, schematic parameters) do change, so this
is a genuine frame property of the embedding. -/
theorem params_never_written :
    (∀ (p : DesParams) (r : DesResult),
      bag3_digital__des_1toN.design p = Except.ok r → r.params = p) ∧
    (∀ (env : CSEnv) (p : CSInvParams) (r : CSResult),
      CurrentStarvedInvCore.draw_layout env p = Except.ok r → r.params = p) ∧
    (∀ (env : InvDiffEnv) (p : InvDiffParams) (r : InvDiffResult),
      InvDiffCore.draw_layout env p = Except.ok r → r.params = p) ∧
    (∀ (env : ChainEnv) (p : ChainParams) (r : ChainResult),
      InvDiffChain.draw_layout env p = Except.ok r → r.params = p) := by
  refine ⟨?_, ?_, ?_, ?_⟩
  · intro p r h
    simp only [bag3_digital__des_1toN.design] at h
    by_cases hr : p.des_ratio < 2
    · rw [if_pos hr] at h
      exact Except.noConfusion h
    · rw [if_neg hr] at h
      cases h
      rfl
  · intro env p r h
    simp only [CurrentStarvedInvCore.draw_layout] at h
    by_cases hseg : ((if p.seg_p ≤ 0 then p.seg_inv else p.seg_p) ≤ 0 ∨
        (if p.seg_n ≤ 0 then p.seg_inv else p.seg_n) ≤ 0)
    · rw [if_pos hseg] at h
      exact Except.noConfusion h
    · rw [if_neg hseg] at h
      by_cases htop : env.top_layer < env.conn_layer + 1 + 1
      · rw [if_pos htop] at h
        exact Except.noConfusion h
      · rw [if_neg htop, connect_through_two] at h
        dsimp only at h
        by_cases hvs : p.vertical_sup = true
        · rw [if_pos hvs] at h
          cases h
          rfl
        · rw [if_neg hvs] at h
          exact Except.noConfusion h
  · intro env p r h
    simp only [InvDiffCore.draw_layout] at h
    by_cases hs : p.sep_vert_out = true
    · rw [if_pos hs] at h
      exact Except.noConfusion h
    · rw [if_neg hs] at h
      cases h
      rfl
  · intro env p r h
    simp only [InvDiffChain.draw_layout] at h
    by_cases he : (intRange 0 p.length).isEmpty = true
    · rw [if_pos he] at h
      exact Except.noConfusion h
    · rw [if_neg he] at h
      cases h
      rfl

/-- A concrete environment for `InvDiffCore`. -/
def idEnv0 : InvDiffEnv :=
  { conn_layer := 1, min_sep_col := 2, inv_kp_ncols := 4, inv_drv_ncols := 6,
    sd_pitch := 10, track_index := fun _ _ => 0, coord_to_track := fun _ _ => 0,
    next_track := fun _ _ => 0, place_wires2 := fun _ _ _ => (0, 1),
    wire_lower := fun _ => 0, wire_upper := fun _ => 0, wire_tidx := fun _ => 0,
    kp_sch := 1, drv_sch := 2 }

/-- Concrete differential-inverter parameters with separate vertical output
tracks disabled. -/
def idP0 : InvDiffParams :=
  { w_p := 0, w_n := 0, ridx_p := -1, ridx_n := 0, vertical_in := false,
    sep_vert_in := false, sep_vert_out := false, seg_kp := 2, seg_drv := 4 }

/-- The result of `InvDiffCore.draw_layout` on `idEnv0`, `idP0`. -/
def idRes0 : InvDiffResult :=
  match InvDiffCore.draw_layout idEnv0 idP0 with
  | Except.ok r => r
  | Except.error _ => { params := idP0, pins := [], sch_params := (0, 0) }

/-- The result of `InvDiffChain.draw_layout` on `chEnv0`, `chP0`. -/
def chRes0 : ChainResult :=
  match InvDiffChain.draw_layout chEnv0 chP0 with
  | Except.ok r => r
  | Except.error _ =>
    { params := chP0, cols := [], conns := [], pins := [],
      sch_length := 0, sch_label_nodes := false, sch_inv_diff := 0 }

/-- Witness for C6: concrete successful runs of all four generators leave
their parameter records unchanged. -/
theorem params_never_written_witness :
    desRes3.params = desP3 ∧ csRes0.params = csP0 ∧
    idRes0.params = idP0 ∧ chRes0.params = chP0 :=
  ⟨params_never_written.1 desP3 desRes3 rfl,
   params_never_written.2.1 csEnv0 csP0 csRes0 rfl,
   params_never_written.2.2.1 idEnv0 idP0 idRes0 rfl,
   params_never_written.2.2.2 chEnv0 chP0 chRes0 rfl⟩

end Bag3
